import Mathlib

/-!
Shallow embedding of the Eigencurve dashboard's substantive logic:
the live-classification view's SSE message handler (flow parsing,
verdict rule, bounded flow list), the `/api/iocs` route (MongoDB read,
reshaping with fallbacks, error handling), the `/api/stream` route
(TCP-to-SSE bridge), and the on-demand scan's hard-coded analysis.
Theorems check the natural-language specification's claims against
these definitions.
-/

namespace Eigencurve

/-! ## Live classification view (live-classification tab)

The SSE `onmessage` handler parses `event.data` as JSON, builds a
`FlowClassification` row (protocol number mapped to a name, verdict
from a hard-coded threshold), and prepends it to the `flows` state,
keeping at most 100 entries (`[flow, ...prev].slice(0, 100)`).
-/

/-- The fields of a flow JSON payload as read by the message handler
(`data.src_ip`, `data.dst_ip`, `data.protocol`, `data.duration_ms`,
`data.bytes`, `data.packets`). -/
structure FlowData where
  src_ip : String
  dst_ip : String
  protocol : Int
  duration_ms : Int
  bytes : Int
  packets : Int
  deriving DecidableEq, Repr

/-- A row of the live table, as the component's `FlowClassification`. -/
structure FlowClassification where
  timestamp : String
  srcIp : String
  dstIp : String
  protocol : String
  duration : Int
  bytes : Int
  packets : Int
  verdict : String
  deriving DecidableEq, Repr

/-- Protocol number to display name: `6 ⇒ TCP`, `17 ⇒ UDP`, `1 ⇒ ICMP`,
otherwise `String(protocol)`. -/
def protocolName (p : Int) : String :=
  if p = 6 then "TCP"
  else if p = 17 then "UDP"
  else if p = 1 then "ICMP"
  else toString p

/-- Building the row from a parsed payload.  `now` stands for
`new Date().toLocaleTimeString()`.  The verdict is the inline rule
`data.bytes > 90000 || data.duration_ms > 50000 ? "Malware" : "Benign"`. -/
def mkFlow (now : String) (d : FlowData) : FlowClassification :=
  { timestamp := now,
    srcIp := d.src_ip,
    dstIp := d.dst_ip,
    protocol := protocolName d.protocol,
    duration := d.duration_ms,
    bytes := d.bytes,
    packets := d.packets,
    verdict := if d.bytes > 90000 ∨ d.duration_ms > 50000 then "Malware" else "Benign" }

/-- The state update `setFlows((prev) => [flow, ...prev].slice(0, 100))`. -/
def pushFlow (flow : FlowClassification) (prev : List FlowClassification) :
    List FlowClassification :=
  (flow :: prev).take 100

/-- Folding the state update over a sequence of already-built rows, in
arrival order, starting from the empty list (the initial state). -/
def processMessages (msgs : List FlowClassification) : List FlowClassification :=
  msgs.foldl (fun acc m => pushFlow m acc) []

/-- One `onmessage` invocation.  `JSON.parse` sits in a `try`/`catch`
whose `catch` only logs, so a parse failure (`parsed = none`) leaves the
state untouched; a success builds the row and pushes it. -/
def onmessage (now : String) (parsed : Option FlowData) (prev : List FlowClassification) :
    List FlowClassification :=
  match parsed with
  | none => prev
  | some d => pushFlow (mkFlow now d) prev

/-- A concrete flow row used to instantiate general statements. -/
def sampleFlow : FlowClassification :=
  mkFlow "00:00:00"
    { src_ip := "10.0.0.1", dst_ip := "10.0.0.2", protocol := 6,
      duration_ms := 10, bytes := 500, packets := 3 }

/-- A flow payload with the given byte count and duration, the other
fields fixed. -/
def flowWith (b dur : Int) : FlowData :=
  { src_ip := "10.0.0.1", dst_ip := "10.0.0.2", protocol := 6,
    duration_ms := dur, bytes := b, packets := 3 }

/-! ### Helper lemmas for the bounded-list invariant -/

/-- Truncating after appending a truncated list is the same as
truncating the full append. -/
theorem take_append_take (l x : List FlowClassification) (n : Nat) :
    (l ++ x.take n).take n = (l ++ x).take n := by
  rw [List.take_append_eq_append_take, List.take_append_eq_append_take,
    List.take_take]
  have h : min (n - l.length) n = n - l.length := Nat.min_eq_left (Nat.sub_le n l.length)
  rw [h]

/-- Running the `slice(0, 100)` update over a message list keeps the
reversed message list (newest first) in front of the start state,
truncated to 100 rows. -/
theorem foldl_pushFlow (msgs : List FlowClassification) :
    ∀ acc : List FlowClassification, acc.length ≤ 100 →
      msgs.foldl (fun a m => pushFlow m a) acc = (msgs.reverse ++ acc).take 100 := by
  induction msgs with
  | nil =>
    intro acc h
    simp [List.take_of_length_le h]
  | cons m ms ih =>
    intro acc h
    have hlen : (pushFlow m acc).length ≤ 100 := by
      simp [pushFlow]
    calc (m :: ms).foldl (fun a m => pushFlow m a) acc
        = ms.foldl (fun a m => pushFlow m a) (pushFlow m acc) := rfl
      _ = (ms.reverse ++ pushFlow m acc).take 100 := ih (pushFlow m acc) hlen
      _ = (ms.reverse ++ (m :: acc)).take 100 := by
          rw [pushFlow, show (m :: acc) = [m] ++ acc from rfl]
          rw [take_append_take ms.reverse ([m] ++ acc) 100]
      _ = ((m :: ms).reverse ++ acc).take 100 := by simp

/-! ## Claim theorems for the live view -/

/-- C1: the computed verdict is "Malware" iff `bytes > 90000` or
`duration_ms > 50000`, and "Benign" otherwise; the comparisons are
strict, so `bytes = 90000, duration_ms = 1000` gives "Benign",
`bytes = 95000, duration_ms = 1000` gives "Malware", and
`bytes = 1000, duration_ms = 1000` gives "Benign". -/
theorem verdict_threshold_rule (now : String) (d : FlowData) :
    ((mkFlow now d).verdict = "Malware" ↔ d.bytes > 90000 ∨ d.duration_ms > 50000)
    ∧ ((mkFlow now d).verdict = "Benign" ↔ ¬(d.bytes > 90000 ∨ d.duration_ms > 50000))
    ∧ (mkFlow now (flowWith 90000 1000)).verdict = "Benign"
    ∧ (mkFlow now (flowWith 95000 1000)).verdict = "Malware"
    ∧ (mkFlow now (flowWith 1000 1000)).verdict = "Benign" := by
  refine ⟨?_, ?_, ?_, ?_, ?_⟩
  · by_cases h : d.bytes > 90000 ∨ d.duration_ms > 50000 <;> simp [mkFlow, h]
  · by_cases h : d.bytes > 90000 ∨ d.duration_ms > 50000 <;> simp [mkFlow, h]
  · simp [mkFlow, flowWith]
  · simp [mkFlow, flowWith]
  · simp [mkFlow, flowWith]

/-- C2: after processing any sequence of messages from the empty state,
the flow list is exactly the reversed sequence truncated to 100 rows
(newest at index 0), so its length is `min n 100`; in particular 150
messages leave exactly 100 rows. -/
theorem flows_bounded_most_recent_first (msgs : List FlowClassification) :
    processMessages msgs = msgs.reverse.take 100
    ∧ (processMessages msgs).length = min msgs.length 100
    ∧ (processMessages (List.replicate 150 sampleFlow)).length = 100 := by
  have key : ∀ ms : List FlowClassification, processMessages ms = ms.reverse.take 100 := by
    intro ms
    have h := foldl_pushFlow ms [] (by simp)
    simpa [processMessages] using h
  refine ⟨key msgs, ?_, ?_⟩
  · rw [key msgs]
    simp [Nat.min_comm]
  · rw [key (List.replicate 150 sampleFlow)]
    simp

/-- C1, instantiated at the boundary payload `bytes = 95000`,
`duration_ms = 1000`. -/
theorem verdict_threshold_rule_witness :
    ((mkFlow "12:00:00" (flowWith 95000 1000)).verdict = "Malware"
       ↔ (flowWith 95000 1000).bytes > 90000 ∨ (flowWith 95000 1000).duration_ms > 50000)
    ∧ ((mkFlow "12:00:00" (flowWith 95000 1000)).verdict = "Benign"
       ↔ ¬((flowWith 95000 1000).bytes > 90000 ∨ (flowWith 95000 1000).duration_ms > 50000))
    ∧ (mkFlow "12:00:00" (flowWith 90000 1000)).verdict = "Benign"
    ∧ (mkFlow "12:00:00" (flowWith 95000 1000)).verdict = "Malware"
    ∧ (mkFlow "12:00:00" (flowWith 1000 1000)).verdict = "Benign" :=
  verdict_threshold_rule "12:00:00" (flowWith 95000 1000)

/-- C2, instantiated at a one-message sequence. -/
theorem flows_bounded_most_recent_first_witness :
    processMessages [sampleFlow] = [sampleFlow].reverse.take 100
    ∧ (processMessages [sampleFlow]).length = min [sampleFlow].length 100
    ∧ (processMessages (List.replicate 150 sampleFlow)).length = 100 :=
  flows_bounded_most_recent_first [sampleFlow]

/-- C10: an SSE event whose data fails to parse as JSON is caught by the
handler's `try`/`catch` and leaves the flows list unchanged. -/
theorem bad_json_leaves_flows_unchanged (now : String) (prev : List FlowClassification) :
    onmessage now none prev = prev
    ∧ (onmessage now none prev).length = prev.length := ⟨rfl, rfl⟩

/-- C10, instantiated at a one-row state. -/
theorem bad_json_leaves_flows_unchanged_witness :
    onmessage "12:00:00" none [sampleFlow] = [sampleFlow]
    ∧ (onmessage "12:00:00" none [sampleFlow]).length = [sampleFlow].length :=
  bad_json_leaves_flows_unchanged "12:00:00" [sampleFlow]

/-! ## The `/api/stream` route (TCP-to-SSE bridge)

The route opens a TCP socket to `127.0.0.1:9999` and installs three
handlers on it.  `data` trims the chunk and, when nonempty, enqueues a
single SSE `data:` event holding the whole trimmed chunk; `close`
enqueues `event: end` and closes the stream controller; `error`
enqueues `event: error` with the error message and does not close.
JavaScript string operations are modelled explicitly over the
character list so that they evaluate. -/

/-- JavaScript `String.prototype.trim` on a character list: drop
whitespace from both ends. -/
def trimChars (l : List Char) : List Char :=
  ((l.dropWhile Char.isWhitespace).reverse.dropWhile Char.isWhitespace).reverse

/-- JavaScript `.trim()`. -/
def jsTrim (s : String) : String := String.mk (trimChars s.data)

/-- Split a character list at every occurrence of `c` (the separators
are consumed; empty segments are kept). -/
def splitCharList (c : Char) : List Char → List (List Char)
  | [] => [[]]
  | x :: xs =>
    let r := splitCharList c xs
    if x = c then [] :: r
    else
      match r with
      | [] => [[x]]
      | y :: ys => (x :: y) :: ys

/-- The newline-separated lines of a string. -/
def jsLines (s : String) : List String := (splitCharList '\n' s.data).map String.mk

/-- The `data` handler: `const message = data.toString().trim();
if (message) controller.enqueue("data: " + message + "\n\n")`.
Returns the list of enqueued SSE frames for one TCP delivery. -/
def onDataHandler (chunk : String) : List String :=
  if jsTrim chunk = "" then [] else ["data: " ++ jsTrim chunk ++ "\n\n"]

/-- The spec's words for the `data` path, written for comparison with
`onDataHandler`: one `data:` event per nonempty newline-separated line
of the delivery, each line forwarded unchanged. -/
def specDataPerLine (chunk : String) : List String :=
  ((jsLines chunk).filter (fun l => l ≠ "")).map (fun l => "data: " ++ l ++ "\n\n")

/-- The frame enqueued by the `close` handler. -/
def endEvent : String := "event: end\ndata: Connection closed\n\n"

/-- The frame enqueued by the `error` handler. -/
def errorEvent (msg : String) : String := "event: error\ndata: " ++ msg ++ "\n\n"

/-- Events delivered by the socket to the three installed handlers. -/
inductive SockEvent where
  | data (chunk : String)
  | close
  | error (msg : String)
  deriving DecidableEq, Repr

/-- The SSE stream's observable state: whether the controller has been
closed, and the frames enqueued so far (in order). -/
structure StreamState where
  closed : Bool
  out : List String
  deriving DecidableEq, Repr

/-- Processing one socket event.  Once the controller is closed,
nothing further is observable: `controller.enqueue` on a closed
controller throws (and a closed socket delivers no events), so the
closed state absorbs every event. -/
def step (s : StreamState) (e : SockEvent) : StreamState :=
  if s.closed then s
  else
    match e with
    | SockEvent.data chunk => { s with out := s.out ++ onDataHandler chunk }
    | SockEvent.close => { closed := true, out := s.out ++ [endEvent] }
    | SockEvent.error m => { s with out := s.out ++ [errorEvent m] }

/-- Processing a sequence of socket events in order. -/
def runStream (s : StreamState) (es : List SockEvent) : StreamState := es.foldl step s

/-- The stream's state when the route handler returns: controller open,
nothing enqueued. -/
def initState : StreamState := { closed := false, out := [] }

/-- A closed stream stays closed and enqueues nothing more. -/
theorem closed_absorbs (es : List SockEvent) :
    ∀ s : StreamState, s.closed = true → runStream s es = s := by
  induction es with
  | nil => intro s _; rfl
  | cons e es ih =>
    intro s h
    have hstep : step s e = s := by simp [step, h]
    calc runStream s (e :: es) = runStream (step s e) es := rfl
      _ = runStream s es := by rw [hstep]
      _ = s := ih s h

/-! ## Claim theorems for the stream route -/

/-- C4 counterexample: a single TCP delivery holding the two
newline-separated lines `a` and `b` is forwarded as one `data:` event
containing the embedded newline, not as one event per line. -/
theorem data_chunk_not_split_cex :
    onDataHandler "a\nb" = ["data: a\nb\n\n"]
    ∧ specDataPerLine "a\nb" = ["data: a\n\n", "data: b\n\n"]
    ∧ onDataHandler "a\nb" ≠ specDataPerLine "a\nb" := by decide

/-- C4 amended: each TCP delivery yields at most one `data:` event; the
event, when emitted, carries the whitespace-trimmed delivery verbatim
(embedded newlines included), and no event is emitted exactly when the
delivery trims to the empty string. -/
theorem data_chunk_single_event (chunk : String) :
    (onDataHandler chunk).length ≤ 1
    ∧ (∀ e ∈ onDataHandler chunk, e = "data: " ++ jsTrim chunk ++ "\n\n")
    ∧ (onDataHandler chunk = [] ↔ jsTrim chunk = "") := by
  by_cases h : jsTrim chunk = "" <;> simp [onDataHandler, h]

/-- C4 amended, instantiated: the two-line delivery `a\nb`. -/
theorem data_chunk_single_event_witness :
    (onDataHandler "a\nb").length ≤ 1
    ∧ (∀ e ∈ onDataHandler "a\nb", e = "data: " ++ jsTrim "a\nb" ++ "\n\n")
    ∧ (onDataHandler "a\nb" = [] ↔ jsTrim "a\nb" = "") :=
  data_chunk_single_event "a\nb"

/-- C5: when the peer closes and the stream is still open, the `close`
handler enqueues exactly the `event: end` frame and closes the
controller, and no event processed afterwards (data or error) changes
the output. -/
theorem close_ends_stream (pre post : List SockEvent)
    (h : (runStream initState pre).closed = false) :
    runStream initState (pre ++ SockEvent.close :: post)
      = { closed := true, out := (runStream initState pre).out ++ [endEvent] } := by
  have h1 : runStream initState (pre ++ SockEvent.close :: post)
      = runStream (step (runStream initState pre) SockEvent.close) post := by
    simp [runStream, List.foldl_append]
  have h2 : step (runStream initState pre) SockEvent.close
      = { closed := true, out := (runStream initState pre).out ++ [endEvent] } := by
    simp [step, h]
  rw [h1, h2]
  exact closed_absorbs post _ rfl

/-- C5, instantiated: one data chunk, then the peer closes, then a late
data chunk and a late error arrive; the output ends at the `end` frame. -/
theorem close_ends_stream_witness :
    (runStream initState [SockEvent.data "x"]).closed = false
    ∧ runStream initState
        ([SockEvent.data "x"] ++ SockEvent.close :: [SockEvent.data "y", SockEvent.error "late"])
      = { closed := true, out := (runStream initState [SockEvent.data "x"]).out ++ [endEvent] } :=
  ⟨by decide,
   close_ends_stream [SockEvent.data "x"] [SockEvent.data "y", SockEvent.error "late"] (by decide)⟩

/-- C6: from an open stream, a socket error enqueues exactly the
`event: error` frame carrying the message and leaves the controller
open, and a subsequent data delivery is still forwarded. -/
theorem error_does_not_close (s : StreamState) (m ch : String) (h : s.closed = false) :
    step s (SockEvent.error m) = { closed := false, out := s.out ++ [errorEvent m] }
    ∧ runStream s [SockEvent.error m, SockEvent.data ch]
        = { closed := false, out := (s.out ++ [errorEvent m]) ++ onDataHandler ch } := by
  have h1 : step s (SockEvent.error m) = { closed := false, out := s.out ++ [errorEvent m] } := by
    simp [step, h]
  refine ⟨h1, ?_⟩
  calc runStream s [SockEvent.error m, SockEvent.data ch]
      = step (step s (SockEvent.error m)) (SockEvent.data ch) := rfl
    _ = step { closed := false, out := s.out ++ [errorEvent m] } (SockEvent.data ch) := by
        rw [h1]
    _ = { closed := false, out := (s.out ++ [errorEvent m]) ++ onDataHandler ch } := by
        simp [step]

/-- C6, instantiated: from the initial state, an error then a data
chunk; both frames appear and the stream stays open. -/
theorem error_does_not_close_witness :
    step initState (SockEvent.error "oops")
      = { closed := false, out := initState.out ++ [errorEvent "oops"] }
    ∧ runStream initState [SockEvent.error "oops", SockEvent.data "x"]
        = { closed := false, out := (initState.out ++ [errorEvent "oops"]) ++ onDataHandler "x" } :=
  error_does_not_close initState "oops" "x" rfl

/-! ## The `/api/iocs` route

The handler connects to MongoDB, reads
`collection.find({}, { limit: 100 }).sort({ detection_date: -1 })`
(the server sorts before applying the limit), reshapes each document
with `||` fallbacks and optional chaining, and returns the JSON array;
any exception in the `try` block is answered with status 500 and
`error: "Database connection failed"`. -/

/-- JavaScript `a || b` for an optionally-present string `a`:
`undefined` and the empty string are falsy. -/
def jsOrS : Option String → String → String
  | some s, dflt => if s = "" then dflt else s
  | none, dflt => dflt

/-- JavaScript `a || b` for an optionally-present number `a`:
`undefined` and `0` are falsy. -/
def jsOrI : Option Int → Int → Int
  | some v, dflt => if v = 0 then dflt else v
  | none, dflt => dflt

/-- `entity_enrichment.company` subdocument. -/
structure Company where
  asn : Option String
  as_name : Option String
  as_type : Option String
  country : Option String
  deriving DecidableEq, Repr

/-- `entity_enrichment` subdocument. -/
structure Enrichment where
  company : Option Company
  deriving DecidableEq, Repr

/-- `entity_src_meta` subdocument. -/
structure SrcMeta where
  country_code : Option String
  conf_score : Option Int
  deriving DecidableEq, Repr

/-- `entity_threat_attr.meta` subdocument; `type1` stands for the
`1_type` key. -/
structure ThreatAttrMeta where
  type1 : Option String
  deriving DecidableEq, Repr

/-- `entity_threat_attr` subdocument. -/
structure ThreatAttr where
  malware_family : Option String
  threat_type : Option String
  meta : Option ThreatAttrMeta
  deriving DecidableEq, Repr

/-- A stored IOC document as the route reads it.  `id` stands for
`_id` (already as a string); `detection_date` is an epoch-millisecond
timestamp. -/
structure IOCDoc where
  id : Option String
  entity : Option String
  entity_type : Option String
  entity_enrichment : Option Enrichment
  entity_src_meta : Option SrcMeta
  entity_threat_attr : Option ThreatAttr
  detection_date : Option Int
  source : Option String
  deriving DecidableEq, Repr

/-- Proleptic-Gregorian date (year, month, day) from a day count since
1970-01-01, with floor division throughout. -/
def civilFromDays (z0 : Int) : Int × Int × Int :=
  let z := z0 + 719468
  let era := Int.fdiv z 146097
  let doe := z - era * 146097
  let yoe := Int.fdiv (doe - Int.fdiv doe 1460 + Int.fdiv doe 36524 - Int.fdiv doe 146096) 365
  let y := yoe + era * 400
  let doy := doe - (365 * yoe + Int.fdiv yoe 4 - Int.fdiv yoe 100)
  let mp := Int.fdiv (5 * doy + 2) 153
  let d := doy - Int.fdiv (153 * mp + 2) 5 + 1
  let m := mp + (if mp < 10 then 3 else -9)
  (y + (if m ≤ 2 then 1 else 0), m, d)

/-- Two-digit zero padding. -/
def pad2 (n : Int) : String := if n < 10 then "0" ++ toString n else toString n

/-- `new Date(ms).toISOString().split("T")[0]`: the UTC calendar day of
an epoch-millisecond timestamp, as `YYYY-MM-DD`. -/
def isoDay (ms : Int) : String :=
  let c := civilFromDays (Int.fdiv ms 86400000)
  toString c.1 ++ "-" ++ pad2 c.2.1 ++ "-" ++ pad2 c.2.2

/-- One element of the `formatted` array the route returns. -/
structure FormattedIOC where
  id : Option String
  entity : String
  entity_type : String
  asn : String
  as_name : String
  as_type : String
  country : String
  threat_type : String
  conf_score : Int
  detection_date : String
  source : String
  deriving DecidableEq, Repr

/-- The reshaping of one document (`docs.map((d) => ...)` body). -/
def formatIOC (d : IOCDoc) : FormattedIOC :=
  { id := d.id,
    entity := jsOrS d.entity "N/A",
    entity_type := jsOrS d.entity_type "N/A",
    asn := jsOrS ((d.entity_enrichment.bind Enrichment.company).bind Company.asn) "N/A",
    as_name := jsOrS ((d.entity_enrichment.bind Enrichment.company).bind Company.as_name) "N/A",
    as_type := jsOrS ((d.entity_enrichment.bind Enrichment.company).bind Company.as_type) "N/A",
    country := jsOrS ((d.entity_enrichment.bind Enrichment.company).bind Company.country)
      (jsOrS (d.entity_src_meta.bind SrcMeta.country_code) "N/A"),
    threat_type := jsOrS (d.entity_threat_attr.bind ThreatAttr.malware_family)
      (jsOrS (d.entity_threat_attr.bind ThreatAttr.threat_type)
        (jsOrS ((d.entity_threat_attr.bind ThreatAttr.meta).bind ThreatAttrMeta.type1) "Unknown")),
    conf_score := jsOrI (d.entity_src_meta.bind SrcMeta.conf_score) 0,
    detection_date :=
      match d.detection_date with
      | some t => if t = 0 then "N/A" else isoDay t
      | none => "N/A",
    source := jsOrS d.source "Unknown" }

/-- Descending order on `detection_date` sort keys (`-1` in the sort
spec; in MongoDB a missing value sorts below every present value). -/
def dateGE (a b : Option Int) : Bool :=
  match a, b with
  | some x, some y => decide (y ≤ x)
  | some _, none => true
  | none, some _ => false
  | none, none => true

/-- The cursor's result: the collection sorted by `detection_date`
descending, limited to 100 documents. -/
def iocsQuery (docs : List IOCDoc) : List IOCDoc :=
  (docs.mergeSort (fun a b => dateGE a.detection_date b.detection_date)).take 100

/-- A route response: a JSON body with status 200, or an error body
with an explicit status. -/
inductive ApiResult (α : Type) where
  | ok (body : α)
  | fail (status : Nat) (msg : String)
  deriving DecidableEq, Repr

/-- The `GET` handler.  The database interaction (connect, query, read,
reshape) is summarised by its outcome: an exception (caught by the
handler's `catch`) or the list of stored documents. -/
def iocsGET (db : Except String (List IOCDoc)) : ApiResult (List FormattedIOC) :=
  match db with
  | Except.ok docs => ApiResult.ok ((iocsQuery docs).map formatIOC)
  | Except.error _ => ApiResult.fail 500 "Database connection failed"

/-! ## Claim theorems for the IOC route -/

/-- C3: any throw in the database interaction is answered with HTTP 500
and the fixed error body; otherwise the handler returns the JSON array
of reshaped records. -/
theorem iocs_error_contract :
    (∀ e : String, iocsGET (Except.error e) = ApiResult.fail 500 "Database connection failed")
    ∧ ∀ docs : List IOCDoc,
        iocsGET (Except.ok docs) = ApiResult.ok ((iocsQuery docs).map formatIOC) :=
  ⟨fun _ => rfl, fun _ => rfl⟩

/-- A well-formed document without `entity_enrichment` but with a
source-metadata country code. -/
def noEnrichDoc : IOCDoc :=
  { id := some "650f1a", entity := some "203.0.113.7", entity_type := some "ip",
    entity_enrichment := none,
    entity_src_meta := some { country_code := some "US", conf_score := some 90 },
    entity_threat_attr := none, detection_date := none, source := some "feed" }

/-- C7 counterexample: with `entity_enrichment` absent, the `country`
column falls back to `entity_src_meta.country_code`, so it renders
"US", not "N/A". -/
theorem missing_enrichment_country_cex :
    noEnrichDoc.entity_enrichment = none
    ∧ (formatIOC noEnrichDoc).country = "US"
    ∧ (formatIOC noEnrichDoc).country ≠ "N/A" := by decide

/-- C7 amended: with `entity_enrichment` absent, `asn`, `as_name` and
`as_type` are "N/A"; `country` falls back to
`entity_src_meta.country_code` and is "N/A" only when that is also
absent or empty. -/
theorem missing_enrichment_columns (d : IOCDoc) (h : d.entity_enrichment = none) :
    (formatIOC d).asn = "N/A"
    ∧ (formatIOC d).as_name = "N/A"
    ∧ (formatIOC d).as_type = "N/A"
    ∧ (formatIOC d).country = jsOrS (d.entity_src_meta.bind SrcMeta.country_code) "N/A" := by
  simp [formatIOC, h, jsOrS]

/-- C7 amended, instantiated at the counterexample document. -/
theorem missing_enrichment_columns_witness :
    noEnrichDoc.entity_enrichment = none
    ∧ ((formatIOC noEnrichDoc).asn = "N/A"
       ∧ (formatIOC noEnrichDoc).as_name = "N/A"
       ∧ (formatIOC noEnrichDoc).as_type = "N/A"
       ∧ (formatIOC noEnrichDoc).country
           = jsOrS (noEnrichDoc.entity_src_meta.bind SrcMeta.country_code) "N/A") :=
  ⟨rfl, missing_enrichment_columns noEnrichDoc rfl⟩

/-- The descending date order is transitive on documents. -/
theorem dateGE_trans (x y z : IOCDoc) :
    dateGE x.detection_date y.detection_date = true →
    dateGE y.detection_date z.detection_date = true →
    dateGE x.detection_date z.detection_date = true := by
  cases x.detection_date <;> cases y.detection_date <;> cases z.detection_date <;>
    simp [dateGE] <;> omega

/-- The descending date order is total on documents. -/
theorem dateGE_total (x y : IOCDoc) :
    (dateGE x.detection_date y.detection_date || dateGE y.detection_date x.detection_date) = true := by
  cases x.detection_date <;> cases y.detection_date <;> simp [dateGE] <;> omega

/-- C8: a successful response holds at most 100 records, drawn from the
stored documents and ordered by descending `detection_date`. -/
theorem iocs_limit_and_order (docs : List IOCDoc) :
    ((iocsQuery docs).map formatIOC).length ≤ 100
    ∧ List.Pairwise (fun a b => dateGE a.detection_date b.detection_date = true) (iocsQuery docs)
    ∧ ∀ x ∈ iocsQuery docs, x ∈ docs := by
  refine ⟨?_, ?_, ?_⟩
  · simp only [List.length_map, iocsQuery]
    exact List.length_take_le 100 _
  · have hs : (docs.mergeSort (fun a b => dateGE a.detection_date b.detection_date)).Pairwise
        (fun a b => dateGE a.detection_date b.detection_date = true) :=
      List.sorted_mergeSort dateGE_trans dateGE_total docs
    exact hs.sublist (List.take_sublist 100 _)
  · intro x hx
    have hx2 : x ∈ docs.mergeSort (fun a b => dateGE a.detection_date b.detection_date) :=
      (List.take_sublist 100 _).subset hx
    exact List.mem_mergeSort.mp hx2

/-- Two concrete documents for instantiating the C8 statement. -/
def docA : IOCDoc :=
  { id := some "a", entity := some "198.51.100.1", entity_type := some "ip",
    entity_enrichment := none, entity_src_meta := none, entity_threat_attr := none,
    detection_date := some 1700000000000, source := some "feedA" }

/-- Second concrete document, with a later detection date. -/
def docB : IOCDoc :=
  { id := some "b", entity := some "198.51.100.2", entity_type := some "ip",
    entity_enrichment := none, entity_src_meta := none, entity_threat_attr := none,
    detection_date := some 1700000001000, source := some "feedB" }

/-- C8, instantiated on a concrete two-document collection. -/
theorem iocs_limit_and_order_witness :
    ((iocsQuery [docA, docB]).map formatIOC).length ≤ 100
    ∧ List.Pairwise (fun a b => dateGE a.detection_date b.detection_date = true)
        (iocsQuery [docA, docB])
    ∧ ∀ x ∈ iocsQuery [docA, docB], x ∈ [docA, docB] :=
  iocs_limit_and_order [docA, docB]

/-! ## The on-demand scan view

`handleAnalyze` ignores the pasted/uploaded text entirely: after a
fixed 2-second delay it sets the results to a hard-coded array of five
rows.  The Analyze button is enabled only when the text is nonempty. -/

/-- One row of the scan's result table. -/
structure ScanResult where
  srcIp : String
  dstIp : String
  protocol : Int
  verdict : String
  confidence : ℚ
  deriving DecidableEq, Repr

/-- The hard-coded `mockResults` array. -/
def mockResults : List ScanResult :=
  [ { srcIp := "192.168.100.38", dstIp := "8.8.8.156", protocol := 6,
      verdict := "Benign", confidence := 94.2 },
    { srcIp := "10.0.0.45", dstIp := "203.0.113.89", protocol := 6,
      verdict := "Malware", confidence := 97.8 },
    { srcIp := "172.16.0.12", dstIp := "1.1.1.1", protocol := 17,
      verdict := "Benign", confidence := 92.1 },
    { srcIp := "192.168.1.100", dstIp := "198.51.100.78", protocol := 6,
      verdict := "Malware", confidence := 89.5 },
    { srcIp := "10.10.10.5", dstIp := "8.8.4.4", protocol := 17,
      verdict := "Benign", confidence := 95.7 } ]

/-- The analysis step: the input text plays no role in the result. -/
def handleAnalyze (logText : String) : List ScanResult := mockResults

/-- C9: any two nonempty inputs produce the same result — the five
hard-coded rows, exactly two of which have verdict "Malware". -/
theorem scan_result_input_independent (s t : String) (hs : s ≠ "") (ht : t ≠ "") :
    handleAnalyze s = handleAnalyze t
    ∧ handleAnalyze s = mockResults
    ∧ (handleAnalyze s).length = 5
    ∧ ((handleAnalyze s).filter (fun r => r.verdict == "Malware")).length = 2 := by
  refine ⟨rfl, rfl, rfl, ?_⟩
  rfl

/-- C9, instantiated at two concrete nonempty inputs. -/
theorem scan_result_input_independent_witness :
    ("paste one" : String) ≠ ""
    ∧ ("paste two" : String) ≠ ""
    ∧ (handleAnalyze "paste one" = handleAnalyze "paste two"
       ∧ handleAnalyze "paste one" = mockResults
       ∧ (handleAnalyze "paste one").length = 5
       ∧ ((handleAnalyze "paste one").filter (fun r => r.verdict == "Malware")).length = 2) :=
  ⟨by decide, by decide,
   scan_result_input_independent "paste one" "paste two" (by decide) (by decide)⟩

end Eigencurve
